import Mathlib

/-!
Shallow embedding of the countdown-timer service in `app.py`.

Times are modelled as integer epoch seconds (`Int`).  Python's floor
division `//` and modulo `%` on integers are `Int.fdiv` and `Int.fmod`.
The raster / GIF-encoding primitives are out of scope (the spec treats
them as black boxes); the animation assembler is modelled as producing
the list of per-frame display texts, and the badge rasterizer's font-fit
loop is modelled over abstract text-measurement functions.
-/

namespace TimerApp

/-- Constant `CACHE_SECONDS = 60` from app.py. -/
def CACHE_SECONDS : Int := 60

/-- Constant `CTA_FRAMES = 5` from app.py. -/
def CTA_FRAMES : Nat := 5

/-- Constant `DEFAULT_LANG = "en"` from app.py. -/
def DEFAULT_LANG : String := "en"

/-- The `LANG_TXT` nested dict from app.py, as an association list
(language tag ↦ association list of state key ↦ display string). -/
def LANG_TXT : List (String × List (String × String)) :=
  [ ("en", [("cta", "START BETTING"),
            ("started", "MATCH HAS STARTED"),
            ("over", "MATCH IS OVER")]),
    ("et", [("cta", "ALUSTA PANUSTAMIST"),
            ("started", "MÄNG ON ALANUD"),
            ("over", "MÄNG ON LÄBI")]) ]

/-- Table `LANG_TXT[DEFAULT_LANG]`: the default-language table (a plain index
in Python; the key is present, so `getD []` is never taken). -/
def defaultTbl : List (String × String) :=
  (LANG_TXT.lookup DEFAULT_LANG).getD []

/-- Function `t(lang, key)` from app.py:
`LANG_TXT.get(lang, LANG_TXT[DEFAULT_LANG]).get(key, LANG_TXT[DEFAULT_LANG][key])`.
The final `getD ""` models the (unreachable for the keys used) `KeyError`
case of the Python direct index. -/
def t (lang key : String) : String :=
  (((LANG_TXT.lookup lang).getD defaultTbl).lookup key).getD
    ((defaultTbl.lookup key).getD "")

/-- Python's `f"{x:02}"` on an int: zero-pad the decimal rendering to a
minimum width of 2 (negative values already have width ≥ 2, so are
unchanged, as in Python). -/
def pad2 (x : Int) : String :=
  let s := toString x
  if s.length < 2 then "0" ++ s else s

/-- Zero-padding of a natural number to width 2 (used on the
specification side of formatting claims). -/
def pad2n (n : Nat) : String :=
  let s := toString n
  if s.length < 2 then "0" ++ s else s

/-- Function `get_timer_text(end_time, now, mode, lang)` from app.py, with the two
datetimes replaced by their epoch seconds (so `remaining =
int((end_time - now).total_seconds())` is `end_time - now`). -/
def get_timer_text (end_time now : Int) (mode : String := "gif")
    (lang : String := "en") : String :=
  let remaining : Int := end_time - now
  if remaining > 0 then
    if mode = "png" then
      let minutes := remaining.fdiv 60
      let h := minutes.fdiv 60
      let m := minutes.fmod 60
      pad2 h ++ ":" ++ pad2 m
    else
      let h := remaining.fdiv 3600
      let m := (remaining.fmod 3600).fdiv 60
      let s := remaining.fmod 60
      pad2 h ++ ":" ++ pad2 m ++ ":" ++ pad2 s
  else
    let elapsed := remaining.natAbs
    if elapsed ≤ 3600 then t lang "started" else t lang "over"

/-- The per-frame text computation inlined in the loop body of
`generate_gif_cached` (app.py lines 171–184), with
`remaining = int((end_time - frame_now).total_seconds())` passed in and
`i` the frame index. -/
def frameText (remaining : Int) (i : Nat) (lang : String) : String :=
  if remaining ≤ 0 ∧ remaining.natAbs ≤ 3600 then t lang "started"
  else if remaining < -3600 then t lang "over"
  else
    if remaining > 0 ∧ i ≥ 60 - CTA_FRAMES then t lang "cta"
    else
      let h := remaining.fdiv 3600
      let m := (remaining.fmod 3600).fdiv 60
      let s := remaining.fmod 60
      pad2 h ++ ":" ++ pad2 m ++ ":" ++ pad2 s

/-- Function `generate_gif_cached(end_timestamp, rounded_timestamp, lang)` from
app.py, modelled as the list of display texts of the frames it encodes
(badge rasterization and GIF encoding are black boxes; each frame is the
badge for its text).  The early branch `now > end_time + timedelta(hours=1)`
yields the single "over" frame; otherwise frame `i` (for `i` in
`range(60)`) uses the instant `now + i` seconds. -/
def generate_gif_frames (end_timestamp rounded_timestamp : Int)
    (lang : String) : List String :=
  if rounded_timestamp > end_timestamp + 3600 then
    [t lang "over"]
  else
    (List.range 60).map fun (i : Nat) =>
      frameText (end_timestamp - (rounded_timestamp + (i : Int))) i lang

/-- Python's `int(s)` on a string, as a partial function: optional
surrounding whitespace, an optional sign, then a nonempty digit string;
anything else raises `ValueError`, modelled as `none`. -/
def pyInt (s : String) : Option Int :=
  let strip : List Char → List Char := fun cs =>
    (((cs.dropWhile (·.isWhitespace)).reverse.dropWhile (·.isWhitespace)).reverse)
  let digits : List Char → Option Nat := fun cs =>
    if cs ≠ [] ∧ cs.all (·.isDigit) then
      some (cs.foldl (fun a c => a * 10 + (c.toNat - Char.toNat '0')) 0)
    else none
  match strip s.data with
  | '-' :: rest => (digits rest).map fun n => -(n : Int)
  | '+' :: rest => (digits rest).map fun n => (n : Int)
  | cs => (digits cs).map fun n => (n : Int)

/-- Function `get_cache_key(end_time, t_param, lang)` from app.py, with the current
wall-clock time passed in as `nowTs` (epoch seconds; `datetime.now(...)
.timestamp() // CACHE_SECONDS` floors, so integer seconds lose nothing).
`t_param = none` models the parameter being absent; the Python truthiness
test `if t_param:` also sends the empty string to the bucketed branch. -/
def get_cache_key (end_ts : Int) (t_param : Option String) (nowTs : Int)
    (lang : String) : Int × Int × String :=
  let bucketed : Int := nowTs.fdiv CACHE_SECONDS * CACHE_SECONDS
  let rounded : Int :=
    match t_param with
    | none => bucketed
    | some s => if s = "" then bucketed else (pyInt s).getD bucketed
  (end_ts, rounded, lang)

/-- Inner-area bounds from `render_timer_frame`:
`max_w = (WIDTH - 2*BORDER) - 2*PADDING_X = 552`. -/
def max_w : Nat := (600 - 2 * 6) - 2 * 18

/-- Bound `max_h = (HEIGHT - 2*BORDER) - 2*PADDING_Y = 108`. -/
def max_h : Nat := (140 - 2 * 6) - 2 * 10

/-- One bbox measurement check from the font-fit loop: the measured text
width/height at a given size fit the padded inner area.  `textW`/`textH`
abstract `draw.textbbox` (a black-box raster primitive). -/
def fitsAt (textW textH : Nat → Nat) (size : Nat) : Bool :=
  textW size ≤ max_w && textH size ≤ max_h

/-- The `while size >= 18` font-fit loop of `render_timer_frame`
(app.py lines 70–78): starting from `size`, return the current size on
the first fit, else decrement by 2; the value returned is the value of
`size` when the loop exits, which is what `get_font(size)` then uses. -/
def fontLoop (textW textH : Nat → Nat) (size : Nat) : Nat :=
  if 18 ≤ size then
    if fitsAt textW textH size then size
    else fontLoop textW textH (size - 2)
  else size
termination_by size
decreasing_by omega

/-- The font size actually used by `render_timer_frame`: the loop started
at `FONT_SIZE = 80`. -/
def chosenFontSize (textW textH : Nat → Nat) : Nat :=
  fontLoop textW textH 80

/-- The sizes the font-fit loop tries, in order, when started at `size`:
`size, size - 2, …` down to the last value `≥ 18`. -/
def fontCands (size : Nat) : List Nat :=
  if 18 ≤ size then size :: fontCands (size - 2) else []
termination_by size
decreasing_by omega

/-- The value the loop variable holds when the `while size >= 18` loop
exits without a fit: repeated decrement by 2 until below 18. -/
def loopExit (size : Nat) : Nat :=
  if 18 ≤ size then loopExit (size - 2) else size
termination_by size
decreasing_by omega

/-- Specification-side formatter: `remaining` seconds as `HH:MM:SS`, each
field zero-padded to 2 digits, hours taken without modulo. -/
def specHMS (r : Nat) : String :=
  pad2n (r / 3600) ++ ":" ++ pad2n (r % 3600 / 60) ++ ":" ++ pad2n (r % 60)

/-- Specification-side formatter for the PNG path: `remaining` seconds as
`HH:MM`, hour and minute derived from the total minutes `r / 60`. -/
def specHM (r : Nat) : String :=
  pad2n (r / 60 / 60) ++ ":" ++ pad2n (r / 60 % 60)

end TimerApp

namespace TimerApp

/-! Helper lemmas: Python `//` and `%` on nonnegative operands are the
`Nat` operations, `pad2` on a nonnegative `Int` is `pad2n`, and the
localized table only ever produces one of two strings per key. -/

theorem fdiv_coe (m n : Nat) :
    ((m : Int)).fdiv ((n : Int)) = ((m / n : Nat) : Int) := by
  cases m with
  | zero => simp [Int.fdiv]
  | succ k => rfl

theorem fmod_coe (m n : Nat) :
    ((m : Int)).fmod ((n : Int)) = ((m % n : Nat) : Int) := by
  cases m with
  | zero => simp [Int.fmod]
  | succ k => rfl

theorem pad2_coe (n : Nat) : pad2 ((n : Nat) : Int) = pad2n n := rfl

theorem t_cta_cases (lang : String) :
    t lang "cta" = "START BETTING" ∨ t lang "cta" = "ALUSTA PANUSTAMIST" := by
  by_cases h1 : lang = "en"
  · subst h1; left; rfl
  · by_cases h2 : lang = "et"
    · subst h2; right; rfl
    · left
      have e1 : (lang == "en") = false := beq_eq_false_iff_ne.mpr h1
      have e2 : (lang == "et") = false := beq_eq_false_iff_ne.mpr h2
      simp [t, LANG_TXT, defaultTbl, DEFAULT_LANG, List.lookup, e1, e2]

theorem t_started_cases (lang : String) :
    t lang "started" = "MATCH HAS STARTED" ∨ t lang "started" = "MÄNG ON ALANUD" := by
  by_cases h1 : lang = "en"
  · subst h1; left; rfl
  · by_cases h2 : lang = "et"
    · subst h2; right; rfl
    · left
      have e1 : (lang == "en") = false := beq_eq_false_iff_ne.mpr h1
      have e2 : (lang == "et") = false := beq_eq_false_iff_ne.mpr h2
      simp [t, LANG_TXT, defaultTbl, DEFAULT_LANG, List.lookup, e1, e2]

theorem t_over_cases (lang : String) :
    t lang "over" = "MATCH IS OVER" ∨ t lang "over" = "MÄNG ON LÄBI" := by
  by_cases h1 : lang = "en"
  · subst h1; left; rfl
  · by_cases h2 : lang = "et"
    · subst h2; right; rfl
    · left
      have e1 : (lang == "en") = false := beq_eq_false_iff_ne.mpr h1
      have e2 : (lang == "et") = false := beq_eq_false_iff_ne.mpr h2
      simp [t, LANG_TXT, defaultTbl, DEFAULT_LANG, List.lookup, e1, e2]

/-- C1: state-boundary semantics of the frame-text selector.  With
`remaining = end_time - now` in whole seconds: `remaining = 0` yields the
localized "started" text, `remaining = 3600` yields the countdown text
`"01:00:00"` (which is not the "started" text), `remaining = -3600` still
yields "started" (boundary inclusive), and `remaining = -3601` yields
"over". -/
theorem C1_state_boundaries (end_time now : Int) (lang : String) :
    (end_time - now = 0 →
      get_timer_text end_time now "gif" lang = t lang "started") ∧
    (end_time - now = 3600 →
      get_timer_text end_time now "gif" lang = "01:00:00" ∧
      get_timer_text end_time now "gif" lang ≠ t lang "started") ∧
    (end_time - now = -3600 →
      get_timer_text end_time now "gif" lang = t lang "started") ∧
    (end_time - now = -3601 →
      get_timer_text end_time now "gif" lang = t lang "over") := by
  refine ⟨?_, ?_, ?_, ?_⟩ <;> intro h
  · simp [get_timer_text, h]
  · have hv : get_timer_text end_time now "gif" lang = "01:00:00" := by
      simp only [get_timer_text, h]
      norm_num
      decide
    refine ⟨hv, ?_⟩
    rw [hv]
    rcases t_started_cases lang with hs | hs <;> rw [hs] <;> decide
  · simp [get_timer_text, h]
  · simp [get_timer_text, h]

/-- Witness for C1 at concrete inputs. -/
theorem C1_state_boundaries_witness :
    get_timer_text 0 0 "gif" "en" = t "en" "started" ∧
    get_timer_text 3600 0 "gif" "en" = "01:00:00" ∧
    get_timer_text (-3600) 0 "gif" "en" = t "en" "started" ∧
    get_timer_text (-3601) 0 "gif" "en" = t "en" "over" :=
  ⟨(C1_state_boundaries 0 0 "en").1 (by decide),
   ((C1_state_boundaries 3600 0 "en").2.1 (by decide)).1,
   (C1_state_boundaries (-3600) 0 "en").2.2.1 (by decide),
   (C1_state_boundaries (-3601) 0 "en").2.2.2 (by decide)⟩

/-- C2 counterexample: at `frameIndex = 54` with `remaining = 10 > 0`, the
frame text is the countdown `"00:00:10"`, not the call-to-action text —
the CTA window is `frameIndex ≥ 60 - 5 = 55`, so index 54 is outside it. -/
theorem C2_cta_at_54_counterexample :
    frameText 10 54 "en" = "00:00:10" ∧ frameText 10 54 "en" ≠ t "en" "cta" := by
  constructor <;> decide

/-- C2 (amended): the CTA window starts at `frameIndex = 55` (the last
`CTA_FRAMES = 5` of the 60 frames are indices 55–59).  A frame with
`frameIndex = 55` and `remaining > 0` receives the localized CTA text,
while with `remaining ≤ 0` a frame (at index 55 or 54) receives the state
text ("started"/"over") — state text takes precedence over CTA. -/
theorem C2_cta_window (remaining : Int) (lang : String) :
    (0 < remaining → frameText remaining 55 lang = t lang "cta") ∧
    (remaining ≤ 0 →
      (frameText remaining 55 lang = t lang "started" ∨
       frameText remaining 55 lang = t lang "over") ∧
      (frameText remaining 54 lang = t lang "started" ∨
       frameText remaining 54 lang = t lang "over")) := by
  constructor
  · intro hr
    have h1 : ¬(remaining ≤ 0 ∧ remaining.natAbs ≤ 3600) := by omega
    have h2 : ¬(remaining < -3600) := by omega
    have h3 : remaining > 0 ∧ 55 ≥ 60 - CTA_FRAMES := ⟨hr, by decide⟩
    simp [frameText, h1, h2, h3]
  · intro hr
    by_cases he : remaining.natAbs ≤ 3600
    · have hc : remaining ≤ 0 ∧ remaining.natAbs ≤ 3600 := ⟨hr, he⟩
      constructor <;> left <;> simp [frameText, hc]
    · have h1 : ¬(remaining ≤ 0 ∧ remaining.natAbs ≤ 3600) := by tauto
      have h2 : remaining < -3600 := by omega
      constructor <;> right <;> simp [frameText, h1, h2]

/-- Witness for C2 (amended) at concrete inputs. -/
theorem C2_cta_window_witness :
    frameText 7 55 "en" = t "en" "cta" ∧
    (frameText (-7) 55 "en" = t "en" "started" ∨
     frameText (-7) 55 "en" = t "en" "over") :=
  ⟨(C2_cta_window 7 "en").1 (by decide),
   ((C2_cta_window (-7) "en").2 (by decide)).1⟩

/-- C4: the cache-key quantizer.  A supplied override that parses as an
integer is used verbatim as the quantized timestamp; an absent override,
or one that fails to parse, falls back to
`floor(currentEpochSeconds / 60) * 60`; the quantizer is a total function
(the unparsable-override error is recovered silently). -/
theorem C4_quantizer (end_ts nowTs : Int) (t_param : Option String)
    (lang : String) :
    (∀ s k, t_param = some s → pyInt s = some k →
      get_cache_key end_ts t_param nowTs lang = (end_ts, k, lang)) ∧
    (t_param = none →
      get_cache_key end_ts t_param nowTs lang =
        (end_ts, nowTs.fdiv 60 * 60, lang)) ∧
    (∀ s, t_param = some s → pyInt s = none →
      get_cache_key end_ts t_param nowTs lang =
        (end_ts, nowTs.fdiv 60 * 60, lang)) := by
  refine ⟨?_, ?_, ?_⟩
  · rintro s k rfl hk
    by_cases hs : s = ""
    · subst hs
      rw [show pyInt "" = none from by decide] at hk
      exact Option.noConfusion hk
    · simp [get_cache_key, hs, hk]
  · rintro rfl
    simp [get_cache_key, CACHE_SECONDS]
  · rintro s rfl hnone
    by_cases hs : s = ""
    · subst hs
      simp [get_cache_key, CACHE_SECONDS]
    · simp [get_cache_key, CACHE_SECONDS, hs, hnone]

/-- Witness for C4 at concrete inputs: a parsing override, an absent
override, and an unparsable override. -/
theorem C4_quantizer_witness :
    get_cache_key 5 (some "120") 999 "en" = (5, 120, "en") ∧
    get_cache_key 5 none 119 "en" = (5, Int.fdiv 119 60 * 60, "en") ∧
    get_cache_key 5 (some "12x") 119 "en" = (5, Int.fdiv 119 60 * 60, "en") :=
  ⟨(C4_quantizer 5 999 (some "120") "en").1 "120" 120 rfl (by decide),
   (C4_quantizer 5 119 none "en").2.1 rfl,
   (C4_quantizer 5 119 (some "12x") "en").2.2 "12x" rfl (by decide)⟩

/-- C9: quantization coalescing.  Two no-override requests whose
wall-clock times fall in the same 60-second bucket produce identical
cache keys (deadline epoch, quantized now, language). -/
theorem C9_bucket_coalescing (end_ts t1 t2 : Int) (lang : String)
    (h : t1.fdiv 60 = t2.fdiv 60) :
    get_cache_key end_ts none t1 lang = get_cache_key end_ts none t2 lang := by
  simp [get_cache_key, CACHE_SECONDS, h]

/-- Witness for C9: 61 and 119 share the bucket `[60, 120)`. -/
theorem C9_bucket_coalescing_witness :
    get_cache_key 0 none 61 "en" = get_cache_key 0 none 119 "en" :=
  C9_bucket_coalescing 0 61 119 "en" (by decide)

/-- C3: animation structure.  If `quantizedNow > deadline + 3600` the
assembler produces the single "over" frame; otherwise exactly 60 frames,
frame `i` being the text for the instant `quantizedNow + i` seconds. -/
theorem C3_animation_structure (end_ts rounded_ts : Int) (lang : String) :
    (rounded_ts > end_ts + 3600 →
      generate_gif_frames end_ts rounded_ts lang = [t lang "over"]) ∧
    (¬ rounded_ts > end_ts + 3600 →
      (generate_gif_frames end_ts rounded_ts lang).length = 60 ∧
      ∀ i : Nat, i < 60 →
        (generate_gif_frames end_ts rounded_ts lang)[i]? =
          some (frameText (end_ts - (rounded_ts + (i : Int))) i lang)) := by
  constructor
  · intro h
    simp [generate_gif_frames, h]
  · intro h
    refine ⟨by simp [generate_gif_frames, h], ?_⟩
    intro i hi
    simp [generate_gif_frames, h, List.getElem?_map, List.getElem?_range hi]

/-- Witness for C3: an expired deadline gives one frame; a live one gives
60 frames whose frame 0 is the text for the reference instant itself. -/
theorem C3_animation_structure_witness :
    generate_gif_frames 0 4000 "en" = [t "en" "over"] ∧
    (generate_gif_frames 100 0 "en").length = 60 ∧
    (generate_gif_frames 100 0 "en")[0]? = some (frameText 100 0 "en") := by
  refine ⟨(C3_animation_structure 0 4000 "en").1 (by decide),
    ((C3_animation_structure 100 0 "en").2 (by decide)).1, ?_⟩
  have h := ((C3_animation_structure 100 0 "en").2 (by decide)).2 0 (by decide)
  simpa using h

/-- C5: countdown formatting.  For `remaining > 0` (GIF mode; in the
frame loop additionally outside the CTA window, `i < 55`) the selected
text is `remaining` rendered as `HH:MM:SS`, each field zero-padded to two
digits, hours computed without modulo; in particular `remaining = 3661`
formats as `"01:01:01"`. -/
theorem C5_hms_format (remaining : Int) (i : Nat) (lang : String)
    (hr : 0 < remaining) (hi : i < 55) :
    get_timer_text remaining 0 "gif" lang = specHMS remaining.toNat ∧
    frameText remaining i lang = specHMS remaining.toNat ∧
    specHMS 3661 = "01:01:01" := by
  obtain ⟨k, rfl⟩ : ∃ k : Nat, remaining = ((k : Nat) : Int) :=
    ⟨remaining.toNat, (Int.toNat_of_nonneg hr.le).symm⟩
  have e1 : ((k : Int)).fdiv 3600 = ((k / 3600 : Nat) : Int) := fdiv_coe k 3600
  have e2 : ((k : Int)).fmod 3600 = ((k % 3600 : Nat) : Int) := fmod_coe k 3600
  have e3 : (((k % 3600 : Nat) : Int)).fdiv 60 = ((k % 3600 / 60 : Nat) : Int) :=
    fdiv_coe (k % 3600) 60
  have e4 : ((k : Int)).fmod 60 = ((k % 60 : Nat) : Int) := fmod_coe k 60
  refine ⟨?_, ?_, by decide⟩
  · simp only [get_timer_text, sub_zero, if_pos hr]
    rw [if_neg (by decide : ¬("gif" : String) = "png")]
    rw [e1, e2, e3, e4]
    simp only [pad2_coe, Int.toNat_ofNat]
    rfl
  · have h1 : ¬(((k : Int)) ≤ 0 ∧ ((k : Int)).natAbs ≤ 3600) := by omega
    have h2 : ¬(((k : Int)) < -3600) := by omega
    have h3 : ¬(((k : Int)) > 0 ∧ i ≥ 60 - CTA_FRAMES) := by
      rw [show 60 - CTA_FRAMES = 55 from rfl]
      omega
    simp only [frameText, if_neg h1, if_neg h2, if_neg h3]
    rw [e1, e2, e3, e4]
    simp only [pad2_coe, Int.toNat_ofNat]
    rfl

/-- Witness for C5 at `remaining = 3661`, frame index 0. -/
theorem C5_hms_format_witness :
    get_timer_text 3661 0 "gif" "en" = "01:01:01" ∧
    frameText 3661 0 "en" = "01:01:01" := by
  have h := C5_hms_format 3661 0 "en" (by decide) (by decide)
  exact ⟨h.1.trans (by decide), h.2.1.trans (by decide)⟩

/-- C7: totality and output shape of the frame-text selector.  For every
integer `remaining`, frame index and language, the selected text is one
of the four categories: the localized "started", "over" or
call-to-action table entry, or a zero-padded `HH:MM:SS` string. -/
theorem C7_selector_output_shape (remaining : Int) (i : Nat) (lang : String) :
    frameText remaining i lang = t lang "started" ∨
    frameText remaining i lang = t lang "over" ∨
    frameText remaining i lang = t lang "cta" ∨
    ∃ h m s : Nat, frameText remaining i lang =
      pad2n h ++ ":" ++ pad2n m ++ ":" ++ pad2n s := by
  by_cases h1 : remaining ≤ 0 ∧ remaining.natAbs ≤ 3600
  · left; simp [frameText, h1]
  · by_cases h2 : remaining < -3600
    · right; left; simp [frameText, h1, h2]
    · by_cases h3 : remaining > 0 ∧ i ≥ 60 - CTA_FRAMES
      · right; right; left; simp [frameText, h1, h2, h3]
      · right; right; right
        have hpos : 0 < remaining := by omega
        obtain ⟨k, rfl⟩ : ∃ k : Nat, remaining = ((k : Nat) : Int) :=
          ⟨remaining.toNat, (Int.toNat_of_nonneg hpos.le).symm⟩
        refine ⟨k / 3600, k % 3600 / 60, k % 60, ?_⟩
        have e1 : ((k : Int)).fdiv 3600 = ((k / 3600 : Nat) : Int) :=
          fdiv_coe k 3600
        have e2 : ((k : Int)).fmod 3600 = ((k % 3600 : Nat) : Int) :=
          fmod_coe k 3600
        have e3 : (((k % 3600 : Nat) : Int)).fdiv 60 =
            ((k % 3600 / 60 : Nat) : Int) := fdiv_coe (k % 3600) 60
        have e4 : ((k : Int)).fmod 60 = ((k % 60 : Nat) : Int) := fmod_coe k 60
        simp only [frameText, if_neg h1, if_neg h2, if_neg h3]
        rw [e1, e2, e3, e4]
        simp only [pad2_coe]

/-- C8: PNG-path granularity.  For `remaining = end_time - now > 0` the
single-frame text is `HH:MM` (minutes only, no seconds field), hour and
minute derived from the total minutes `remaining // 60`. -/
theorem C8_png_minute_granularity (end_time now : Int) (lang : String)
    (h : 0 < end_time - now) :
    get_timer_text end_time now "png" lang = specHM (end_time - now).toNat := by
  obtain ⟨k, hk⟩ : ∃ k : Nat, end_time - now = ((k : Nat) : Int) :=
    ⟨(end_time - now).toNat, (Int.toNat_of_nonneg h.le).symm⟩
  have hpos : ((k : Int)) > 0 := hk ▸ h
  have e1 : ((k : Int)).fdiv 60 = ((k / 60 : Nat) : Int) := fdiv_coe k 60
  have e2 : (((k / 60 : Nat) : Int)).fdiv 60 = ((k / 60 / 60 : Nat) : Int) :=
    fdiv_coe (k / 60) 60
  have e3 : (((k / 60 : Nat) : Int)).fmod 60 = ((k / 60 % 60 : Nat) : Int) :=
    fmod_coe (k / 60) 60
  simp only [get_timer_text, hk, if_pos hpos, if_pos trivial]
  rw [e1, e2, e3]
  simp only [pad2_coe, Int.toNat_ofNat]
  rfl

/-- Witness for C8: `remaining = 3661` renders as `"01:01"`. -/
theorem C8_png_minute_granularity_witness :
    get_timer_text 3661 0 "png" "en" = "01:01" :=
  (C8_png_minute_granularity 3661 0 "en" (by decide)).trans (by decide)

/-- C10: the PNG-mode selector never returns the localized call-to-action
string, for any deadline, now, or language — a PNG render always shows a
countdown, "started", or "over" text. -/
theorem C10_png_never_cta (end_time now : Int) (lang : String) :
    get_timer_text end_time now "png" lang ≠ t lang "cta" := by
  intro hEq
  by_cases hr : end_time - now > 0
  · have hx : get_timer_text end_time now "png" lang =
        pad2 ((end_time - now).fdiv 60 |>.fdiv 60) ++ ":" ++
          pad2 (((end_time - now).fdiv 60).fmod 60) := by
      simp [get_timer_text, hr]
    rw [hx] at hEq
    have hc : ':' ∈ (t lang "cta").data := by
      rw [← hEq]
      simp [String.data_append]
    rcases t_cta_cases lang with h | h <;> rw [h] at hc <;>
      exact absurd hc (by decide)
  · have hx : get_timer_text end_time now "png" lang = t lang "started" ∨
        get_timer_text end_time now "png" lang = t lang "over" := by
      by_cases he : (end_time - now).natAbs ≤ 3600
      · left; simp [get_timer_text, hr, he]
      · right; simp [get_timer_text, hr, he]
    rcases hx with hx | hx <;> rw [hx] at hEq
    · rcases t_started_cases lang with h1 | h1 <;>
        rcases t_cta_cases lang with h2 | h2 <;> rw [h1, h2] at hEq <;>
          exact absurd hEq (by decide)
    · rcases t_over_cases lang with h1 | h1 <;>
        rcases t_cta_cases lang with h2 | h2 <;> rw [h1, h2] at hEq <;>
          exact absurd hEq (by decide)

/-- The font-fit loop, from any start, returns the first fitting
candidate size, and otherwise the loop-exit value of the size variable. -/
theorem fontLoop_characterization (textW textH : Nat → Nat) (size : Nat) :
    fontLoop textW textH size =
      ((fontCands size).find? (fitsAt textW textH)).getD (loopExit size) := by
  induction size using Nat.strong_induction_on with
  | _ size ih =>
    rw [fontLoop, fontCands, loopExit]
    by_cases h : 18 ≤ size
    · rw [if_pos h, if_pos h, if_pos h]
      by_cases hf : fitsAt textW textH size
      · rw [if_pos hf, List.find?_cons_of_pos _ hf]
        rfl
      · rw [if_neg hf, List.find?_cons_of_neg _ (by simpa using hf)]
        exact ih (size - 2) (by omega)
    · rw [if_neg h, if_neg h, if_neg h]
      rfl

/-- The candidate sizes tried from the start value 80: 80 down to 18 in
steps of 2. -/
theorem fontCands_80_eval :
    fontCands 80 = [80, 78, 76, 74, 72, 70, 68, 66, 64, 62, 60, 58, 56,
      54, 52, 50, 48, 46, 44, 42, 40, 38, 36, 34, 32, 30, 28, 26, 24, 22,
      20, 18] := by
  simp [fontCands]

/-- When no candidate fits, the loop variable exits at 16. -/
theorem loopExit_80_eval : loopExit 80 = 16 := by
  simp [loopExit]

/-- C6 counterexample: with measurements that never fit (e.g. a constant
1000-pixel bounding box, wider than `max_w = 552` at every size), the
rasterizer draws at size 16, not at the claimed smallest tried size 18:
the `while size >= 18` loop exits with `size = 16` after the final
decrement, and `get_font(size)` uses that value. -/
theorem C6_fallback_counterexample :
    chosenFontSize (fun _ => 1000) (fun _ => 1000) ≠ 18 := by
  have h := fontLoop_characterization (fun _ => 1000) (fun _ => 1000) 80
  unfold chosenFontSize
  rw [h, fontCands_80_eval, loopExit_80_eval]
  decide

/-- C6 (amended): the font size is searched downward from 80pt in steps
of 2, stopping at the first size (among 80, 78, …, 18) whose measured
bounding box fits the padded inner area; if no size from 80 down to 18
fits, the text is drawn at 16pt — the value of the loop variable after
the final decrement, one step below the smallest size tried — and the
search never fails. -/
theorem C6_font_search (textW textH : Nat → Nat) :
    chosenFontSize textW textH =
      ((fontCands 80).find? (fitsAt textW textH)).getD 16 ∧
    fontCands 80 = [80, 78, 76, 74, 72, 70, 68, 66, 64, 62, 60, 58, 56,
      54, 52, 50, 48, 46, 44, 42, 40, 38, 36, 34, 32, 30, 28, 26, 24, 22,
      20, 18] ∧
    ((fontCands 80).find? (fitsAt textW textH) = none →
      chosenFontSize textW textH = 16) := by
  have h : chosenFontSize textW textH =
      ((fontCands 80).find? (fitsAt textW textH)).getD 16 := by
    rw [chosenFontSize, fontLoop_characterization, loopExit_80_eval]
  refine ⟨h, fontCands_80_eval, ?_⟩
  intro hn
  rw [h, hn]
  rfl

/-- Witness for C6 (amended): with a constant 1000-pixel measured box no
size fits and the chosen size is 16. -/
theorem C6_font_search_witness :
    chosenFontSize (fun _ => 600) (fun _ => 600) = 16 :=
  (C6_font_search (fun _ => 600) (fun _ => 600)).2.2
    (by rw [fontCands_80_eval]; decide)

end TimerApp
